import Mathlib

/-!
Verification of the certificate-automation script (`auto_ssl.py`).

Shallow embedding conventions:
* Python strings are `List Char`; `pyStr` injects Lean string literals.
* Timestamps are integer seconds since an arbitrary epoch; Python
  `timedelta.days` is floor division of the second difference by 86400.
* Effectful operations (subprocess invocations, DNS provider calls,
  the record-store file write) are driven by explicit environment
  records describing the outcome of each external call, and the
  functions additionally return a trace of the calls they issued.
-/

/-- Injection of a Lean string literal into the `List Char` model. -/
def pyStr (s : String) : List Char := s.data

/-- Single quote character (code 39). -/
def sqC : Char := Char.ofNat 39

/-- Double quote character (code 34). -/
def dqC : Char := Char.ofNat 34

/-- Newline character. -/
def nlC : Char := Char.ofNat 10

/-- Equals-sign character. -/
def eqC : Char := Char.ofNat 61

/-- Dot character. -/
def dotC : Char := Char.ofNat 46

/-- Python `s.split(c)` for a one-character separator: splitting the
empty string yields `[""]`, and separators at the ends yield empty
fields. -/
def splitChar (c : Char) : List Char → List (List Char)
  | [] => [[]]
  | x :: xs =>
    if x = c then [] :: splitChar c xs
    else
      match splitChar c xs with
      | [] => [[x]]
      | h :: t => (x :: h) :: t

/-- Python substring containment `needle in hay`. -/
def listContains (needle : List Char) : List Char → Bool
  | [] => needle.isEmpty
  | c :: rest => needle.isPrefixOf (c :: rest) || listContains needle rest

/-- Strip characters satisfying `p` from both ends of a list
(Python `str.strip` with a character class). -/
def stripChars (p : Char → Bool) (s : List Char) : List Char :=
  ((s.dropWhile p).reverse.dropWhile p).reverse

/-- Python `str.strip()` whitespace class: space, tab, newline,
carriage return, vertical tab, form feed. -/
def isPyWs (c : Char) : Bool :=
  c = Char.ofNat 32 || c = Char.ofNat 9 || c = Char.ofNat 10 ||
  c = Char.ofNat 13 || c = Char.ofNat 11 || c = Char.ofNat 12

/-- The quote class stripped by `strip("'\x22")`. -/
def isQuote (c : Char) : Bool := c = sqC || c = dqC

/-- Line marker of the first extraction heuristic in
`_extract_txt_value`: the line contains `TXT value`, or its
lowercasing contains `txt value` (the first test is subsumed by the
second for ASCII, mirroring the Python disjunction). -/
def markerLine (line : List Char) : Bool :=
  listContains (pyStr "TXT value") line ||
  listContains (pyStr "txt value") (line.map Char.toLower)

/-- First loop of `_extract_txt_value`: on a marker line, return the
second field of the single-quote split if it has at least two fields,
else the second field of the double-quote split if it has at least
two fields, else keep scanning. -/
def firstPass : List (List Char) → Option (List Char)
  | [] => none
  | line :: rest =>
    if markerLine line then
      match splitChar sqC line with
      | _ :: v :: _ => some v
      | _ =>
        match splitChar dqC line with
        | _ :: v :: _ => some v
        | _ => firstPass rest
    else firstPass rest

/-- Body of the second loop of `_extract_txt_value` for one line: on
a line containing `_acme-challenge` and `=`, take the second
`=`-split field, strip whitespace then quotes, and return it if
non-empty (`some` models the `return`, `none` falling through to the
next line). -/
def secondPassBody (line : List Char) : Option (List Char) :=
  if listContains (pyStr "_acme-challenge") line && listContains [eqC] line then
    match splitChar eqC line with
    | _ :: p1 :: _ =>
      if stripChars isQuote (stripChars isPyWs p1) = [] then none
      else some (stripChars isQuote (stripChars isPyWs p1))
    | _ => none
  else none

/-- Second loop of `_extract_txt_value`: the first line whose body
returns a value wins. -/
def secondPass : List (List Char) → Option (List Char)
  | [] => none
  | line :: rest =>
    match secondPassBody line with
    | some v => some v
    | none => secondPass rest

/-- `SSLCertificateManager._extract_txt_value`: split the captured
output into lines and run the two heuristics in order. -/
def extract_txt_value (output : List Char) : Option (List Char) :=
  match firstPass (splitChar nlC output) with
  | some v => some v
  | none => secondPass (splitChar nlC output)

/-! ### Certificate record store -/

/-- One entry of `cert_records.json`.  `expiry_date` distinguishes an
absent/falsy field (`none`), a present but unparseable field
(`some none`) and a parsed timestamp (`some (some t)`, seconds). -/
structure CertRecord where
  expiry_date : Option (Option Int)
  updated_at : Int
  status : Option (List Char)
deriving DecidableEq, Repr

/-- The in-memory `cert_records` dictionary, as an association list
whose lookup takes the first (most recent) binding. -/
abbrev Store := List (List Char × CertRecord)

/-- Dictionary lookup `records.get(domain)`. -/
def storeGet : Store → List Char → Option CertRecord
  | [], _ => none
  | (k, v) :: rest, d => if k = d then some v else storeGet rest d

/-- Dictionary assignment `records[domain] = rec` (prepending, so
that `storeGet` sees the new binding first). -/
def storeSet (s : Store) (d : List Char) (r : CertRecord) : Store :=
  (d, r) :: s

/-- The `status` value written on success. -/
def activeStr : List Char := pyStr "active"

/-- `SSLCertificateManager.check_cert_expiry`: `true` means the
domain needs (re)issuance.  `cfgThreshold` models
`config.get(renewal_days_before_expiry, 30)` and `now` the current
time in seconds. -/
def check_cert_expiry (records : Store) (cfgThreshold : Option Int)
    (now : Int) (domain : List Char) : Bool :=
  match storeGet records domain with
  | none => true
  | some r =>
    match r.expiry_date with
    | none => true
    | some none => true
    | some (some expiry) =>
      decide (Int.fdiv (expiry - now) 86400 ≤ cfgThreshold.getD 30)

/-- The record written by `update_cert_record`: expiry 90 days out,
status `active`. -/
def mkActiveRecord (now : Int) : CertRecord :=
  ⟨some (some (now + 90 * 86400)), now, some activeStr⟩

/-- `SSLCertificateManager.update_cert_record` restricted to its
in-memory effect on the dictionary. -/
def update_cert_record (records : Store) (now : Int) (domain : List Char) : Store :=
  storeSet records domain (mkActiveRecord now)

/-! ### DNS challenge manager -/

/-- `SSLCertificateManager.get_root_domain`: the last two dot
labels, or the whole domain if it has fewer than two. -/
def get_root_domain (domain : List Char) : List Char :=
  (fun parts =>
    if parts.length ≥ 2 then
      List.intercalate [dotC] (parts.drop (parts.length - 2))
    else domain) (splitChar dotC domain)

/-- Fuel-indexed body of Python `str.replace(old, new)` for a
non-empty `old`; each step consumes at least one character, so fuel
equal to the string length is exact. -/
def pyReplaceFuel (old neww : List Char) : Nat → List Char → List Char
  | _, [] => []
  | 0, s => s
  | n + 1, c :: rest =>
    if old.isPrefixOf (c :: rest) then
      neww ++ pyReplaceFuel old neww n (rest.drop (old.length - 1))
    else c :: pyReplaceFuel old neww n rest

/-- Python `s.replace(old, new)`: replace all non-overlapping
occurrences left to right.  (The `old = []` case never arises in this
development and is mapped to the identity.) -/
def pyReplace (old neww s : List Char) : List Char :=
  if old = [] then s else pyReplaceFuel old neww s.length s

/-- The relative record name computed by `add_dns_txt_record`:
`_acme-challenge.<domain>` with every occurrence of `.<root>`
removed, then a trailing `<root>` (with its preceding dot) cut off
if one remains. -/
def derive_record_name (domain : List Char) : List Char :=
  (fun root =>
    (fun name1 =>
      if root.isSuffixOf name1 then
        name1.take (name1.length - (root.length + 1))
      else name1)
      (pyReplace (dotC :: root) [] (pyStr "_acme-challenge." ++ domain)))
    (get_root_domain domain)

/-- Outcomes of the DNS provider calls made during one
`add_dns_txt_record` invocation.  `findResult` is the value returned
by `_find_dns_record` (whose own query failures already surface as
`none`); `updateOk` is whether the update call returns normally;
`addResult` is the record ID returned by the create call, or `none`
if that call raises. -/
structure DnsEnv where
  findResult : Option (List Char)
  updateOk : Bool
  addResult : Option (List Char)
deriving DecidableEq, Repr

/-- Provider calls issued by `add_dns_txt_record`, in order. -/
inductive DnsEv where
  | findRecord (root rr : List Char)
  | updateRecord (recordId rr value : List Char)
  | addRecord (root rr value : List Char)
  | sleep60
deriving DecidableEq, Repr

/-- `SSLCertificateManager.add_dns_txt_record`: look up an existing
TXT record; if found, update it in place and return its ID, else
create a new record, wait 60 seconds, and return the new ID.  Any
exception from the update or create call is caught and turns the
result into `none`. -/
def add_dns_txt_record (env : DnsEnv) (domain value : List Char) :
    Option (List Char) × List DnsEv :=
  (fun root rr =>
    match env.findResult with
    | some recId =>
      (if env.updateOk then some recId else none,
       [DnsEv.findRecord root rr, DnsEv.updateRecord recId rr value])
    | none =>
      match env.addResult with
      | some newId =>
        (some newId,
         [DnsEv.findRecord root rr, DnsEv.addRecord root rr value, DnsEv.sleep60])
      | none =>
        (none, [DnsEv.findRecord root rr, DnsEv.addRecord root rr value]))
    (get_root_domain domain) (derive_record_name domain)

/-! ### ACME invocation adapter -/

/-- Captured result of one `subprocess.run` of the external ACME
client. -/
structure AcmeRun where
  stdout : List Char
  stderr : List Char
  returncode : Int
deriving DecidableEq, Repr

/-- Outcomes of the external calls made during one
`issue_certificate` invocation: the two `subprocess.run` results
(`none` models the call raising an exception) and the DNS provider
behaviour. -/
structure IssueEnv where
  run1 : Option AcmeRun
  dns : DnsEnv
  run2 : Option AcmeRun
deriving DecidableEq, Repr

/-- Observable steps of `issue_certificate`, in order.  `acmeRun1`
records whether the renew-force command form was used; `extractFail`
records the raw output logged when no TXT value could be extracted;
`exnCaught` marks the `except` handler firing. -/
inductive IssueEv where
  | acmeRun1 (renewForce : Bool)
  | extractFail (stdout stderr : List Char)
  | addTxt (value : List Char)
  | acmeRun2
  | deleteTxt (recordId : List Char)
  | exnCaught
deriving DecidableEq, Repr

/-- `SSLCertificateManager.issue_certificate`: first ACME run,
extraction of the TXT value from combined stdout+stderr, DNS record
upsert, second ACME run, deletion of the challenge record, exit-code
check.  Exceptions from either `subprocess.run` are caught by the
surrounding `except` and yield `false`; an exception in the second
run skips the deletion step, which the straight-line code only
reaches on a normal return. -/
def issue_certificate (certExists force : Bool) (env : IssueEnv)
    (domain : List Char) : Bool × List IssueEv :=
  (fun mode =>
    match env.run1 with
    | none => (false, [IssueEv.acmeRun1 mode, IssueEv.exnCaught])
    | some r1 =>
      match extract_txt_value (r1.stdout ++ r1.stderr) with
      | none =>
        (false, [IssueEv.acmeRun1 mode, IssueEv.extractFail r1.stdout r1.stderr])
      | some txt =>
        match (add_dns_txt_record env.dns domain txt).1 with
        | none => (false, [IssueEv.acmeRun1 mode, IssueEv.addTxt txt])
        | some recId =>
          match env.run2 with
          | none =>
            (false, [IssueEv.acmeRun1 mode, IssueEv.addTxt txt,
                     IssueEv.acmeRun2, IssueEv.exnCaught])
          | some r2 =>
            (decide (r2.returncode = 0),
             [IssueEv.acmeRun1 mode, IssueEv.addTxt txt,
              IssueEv.acmeRun2, IssueEv.deleteTxt recId]))
    (certExists && force)

/-! ### Domain renewal orchestrator -/

/-- The in-memory dictionary together with the backing
`cert_records.json` contents. -/
structure StorePair where
  mem : Store
  file : Store
deriving DecidableEq, Repr

/-- Result of one `process_domain` call: a returned boolean, or an
exception propagating out of it. -/
inductive Outcome where
  | ok (b : Bool)
  | raised
deriving DecidableEq, Repr

/-- Per-domain environment: filesystem state
(`check_certificate_exists`), ACME/DNS behaviour, CDN upload
outcome, record-store write outcome, and the current time. -/
structure DomEnv where
  certExists : Bool
  issueEnv : IssueEnv
  uploadOk : Bool
  saveOk : Bool
  now : Int
deriving DecidableEq, Repr

/-- Top-level steps of `process_domain`, in order. -/
inductive PEv where
  | issueCall (force : Bool)
  | uploadCall
  | saveCall
deriving DecidableEq, Repr

/-- `domain in cert_records and cert_records[domain].get(status) == active`. -/
def hasActiveRecord (s : Store) (domain : List Char) : Bool :=
  match storeGet s domain with
  | some r => decide (r.status = some activeStr)
  | none => false

/-- Tail of `process_domain` from the upload step on: a failed
upload returns `false`; a successful upload updates the in-memory
record and saves the store, a failing save raising out of
`process_domain` after the in-memory assignment. -/
def publishStep (env : DomEnv) (sp : StorePair) (domain : List Char)
    (evs : List PEv) : Outcome × StorePair × List PEv :=
  if env.uploadOk then
    if env.saveOk then
      (Outcome.ok true,
       ⟨update_cert_record sp.mem env.now domain,
        update_cert_record sp.mem env.now domain⟩,
       evs ++ [PEv.uploadCall, PEv.saveCall])
    else
      (Outcome.raised,
       ⟨update_cert_record sp.mem env.now domain, sp.file⟩,
       evs ++ [PEv.uploadCall, PEv.saveCall])
  else (Outcome.ok false, sp, evs ++ [PEv.uploadCall])

/-- `SSLCertificateManager.process_domain`: renewal check, artifact
check, the three issuance branches (forced renewal, skip, fresh
issue), then upload and record update. -/
def process_domain (cfgT : Option Int) (env : DomEnv) (sp : StorePair)
    (domain : List Char) : Outcome × StorePair × List PEv :=
  if check_cert_expiry sp.mem cfgT env.now domain = false then
    (Outcome.ok true, sp, [])
  else
    if env.certExists then
      if hasActiveRecord sp.mem domain then
        if (issue_certificate env.certExists true env.issueEnv domain).1 then
          publishStep env sp domain [PEv.issueCall true]
        else (Outcome.ok false, sp, [PEv.issueCall true])
      else
        publishStep env sp domain []
    else
      if (issue_certificate env.certExists false env.issueEnv domain).1 then
        publishStep env sp domain [PEv.issueCall false]
      else (Outcome.ok false, sp, [PEv.issueCall false])

/-- The per-domain loop of `run`: each domain is processed with its
own environment, a `true` return counts as a success, and both a
`false` return and an exception caught at the loop boundary count as
a failure; the store state threads through. -/
def run_tally (cfgT : Option Int) :
    List (List Char × DomEnv) → StorePair → Nat × Nat × StorePair
  | [], sp => (0, 0, sp)
  | (d, e) :: rest, sp =>
    (fun r =>
      (fun t =>
        match r.1 with
        | Outcome.ok true => (t.1 + 1, t.2.1, t.2.2)
        | _ => (t.1, t.2.1 + 1, t.2.2))
        (run_tally cfgT rest r.2.1))
      (process_domain cfgT e sp d)

/-! ### Claim C1 -/

/-- Claim C1: for every domain and threshold, `check_cert_expiry`
returns true iff the domain has no record, or its record's
expiry date is absent or unparseable, or the number of days from now
until the expiry date is at most the configured threshold (default
30); in particular it returns true when the expiry date is exactly
the threshold number of days in the future and false when it is one
day beyond the threshold. -/
theorem claim_C1 (records : Store) (cfgT : Option Int) (now : Int)
    (domain : List Char) :
    (check_cert_expiry records cfgT now domain = true ↔
      storeGet records domain = none ∨
      (∃ r, storeGet records domain = some r ∧
        (r.expiry_date = none ∨ r.expiry_date = some none)) ∨
      (∃ r t, storeGet records domain = some r ∧
        r.expiry_date = some (some t) ∧
        Int.fdiv (t - now) 86400 ≤ cfgT.getD 30)) ∧
    (∀ r, storeGet records domain = some r →
      r.expiry_date = some (some (now + cfgT.getD 30 * 86400)) →
      check_cert_expiry records cfgT now domain = true) ∧
    (∀ r, storeGet records domain = some r →
      r.expiry_date = some (some (now + (cfgT.getD 30 + 1) * 86400)) →
      check_cert_expiry records cfgT now domain = false) := by
  have hc : (86400 : Int) ≠ 0 := by norm_num
  unfold check_cert_expiry
  rcases hg : storeGet records domain with _ | r
  · simp [hg]
  · rcases he : r.expiry_date with _ | oe
    · simp [hg, he]
    · rcases oe with _ | t0
      · simp [hg, he]
      · refine ⟨?_, ?_, ?_⟩
        · simp only [hg, he, decide_eq_true_eq]
          constructor
          · intro hle
            exact Or.inr (Or.inr ⟨r, t0, rfl, he, hle⟩)
          · rintro (h | ⟨r2, hr2, h2⟩ | ⟨r2, t2, hr2, h2, hle⟩)
            · exact absurd h (by simp)
            · obtain rfl : r = r2 := by injection hr2
              rcases h2 with h2 | h2 <;> rw [he] at h2 <;> simp at h2
            · obtain rfl : r = r2 := by injection hr2
              rw [he] at h2
              obtain rfl : t0 = t2 := by injection h2 with h2; injection h2
              exact hle
        · intro r2 hr2 h2
          obtain rfl : r = r2 := by injection hr2
          rw [he] at h2
          obtain rfl : t0 = now + cfgT.getD 30 * 86400 := by
            injection h2 with h2; injection h2
          simp only [hg, he, decide_eq_true_eq]
          have h3 : now + cfgT.getD 30 * 86400 - now = cfgT.getD 30 * 86400 := by
            ring
          rw [h3, Int.mul_fdiv_cancel _ hc]
        · intro r2 hr2 h2
          obtain rfl : r = r2 := by injection hr2
          rw [he] at h2
          obtain rfl : t0 = now + (cfgT.getD 30 + 1) * 86400 := by
            injection h2 with h2; injection h2
          simp only [hg, he, decide_eq_false_iff_not, decide_eq_true_eq]
          have h3 : now + (cfgT.getD 30 + 1) * 86400 - now
              = (cfgT.getD 30 + 1) * 86400 := by ring
          rw [h3, Int.mul_fdiv_cancel _ hc]
          omega

/-- Witness for claim C1: a concrete record expiring exactly 30 days
from time 0 is reported as needing renewal. -/
theorem claim_C1_witness :
    check_cert_expiry
      [(pyStr "a", ⟨some (some (30 * 86400)), 0, some activeStr⟩)]
      none 0 (pyStr "a") = true :=
  (claim_C1 [(pyStr "a", ⟨some (some (30 * 86400)), 0, some activeStr⟩)]
      none 0 (pyStr "a")).2.1
    ⟨some (some (30 * 86400)), 0, some activeStr⟩ (by decide) (by decide)

/-! ### Claim C7 -/

/-- Claim C7: for every domain, `update_cert_record` (which records
success with the fixed 90-day validity assumption) followed
immediately by `check_cert_expiry` with threshold 30 (whether the
threshold is defaulted or explicitly configured) returns false. -/
theorem claim_C7 (records : Store) (now : Int) (domain : List Char) :
    check_cert_expiry (update_cert_record records now domain) none now domain
      = false ∧
    check_cert_expiry (update_cert_record records now domain) (some 30) now domain
      = false := by
  have hc : (86400 : Int) ≠ 0 := by norm_num
  have h3 : now + 90 * 86400 - now = 90 * 86400 := by ring
  have h4 : Int.fdiv (90 * 86400) 86400 = 90 := Int.mul_fdiv_cancel _ hc
  constructor <;>
    · unfold check_cert_expiry update_cert_record storeSet mkActiveRecord storeGet
      simp [h3, h4]

/-! ### Extraction lemmas -/

/-- If no line carries the `TXT value` marker, the first heuristic
finds nothing. -/
lemma firstPass_eq_none (L : List (List Char))
    (h : ∀ l ∈ L, markerLine l = false) : firstPass L = none := by
  induction L with
  | nil => rfl
  | cons a t ih =>
    unfold firstPass
    simp only [h a (List.mem_cons_self a t), Bool.false_eq_true, if_false]
    exact ih fun l hl => h l (List.mem_cons_of_mem a hl)

/-- Per-line form of heuristic (b) of `_extract_txt_value`: the value
a single line contributes, `none` if the line is skipped. -/
def lineHeuristicB (line : List Char) : Option (List Char) :=
  if listContains (pyStr "_acme-challenge") line && listContains [eqC] line then
    match splitChar eqC line with
    | _ :: p1 :: _ =>
      if stripChars isQuote (stripChars isPyWs p1) = [] then none
      else some (stripChars isQuote (stripChars isPyWs p1))
    | _ => none
  else none

/-- A value contributed by one line of the second loop is non-empty. -/
lemma secondPassBody_some_ne_nil (line w : List Char)
    (h : secondPassBody line = some w) : w ≠ [] := by
  unfold secondPassBody at h
  by_cases hg : (listContains (pyStr "_acme-challenge") line
      && listContains [eqC] line) = true
  · rw [if_pos hg] at h
    revert h
    generalize splitChar eqC line = ps
    rcases ps with _ | ⟨h1, _ | ⟨p1, t2⟩⟩ <;> intro h
    · simp at h
    · simp at h
    · change (if stripChars isQuote (stripChars isPyWs p1) = [] then
          (none : Option (List Char))
        else some (stripChars isQuote (stripChars isPyWs p1))) = some w at h
      by_cases hv : stripChars isQuote (stripChars isPyWs p1) = []
      · rw [if_pos hv] at h
        simp at h
      · rw [if_neg hv] at h
        obtain rfl : stripChars isQuote (stripChars isPyWs p1) = w := by
          injection h
        exact hv
  · rw [if_neg hg] at h
    simp at h

/-- The second loop of `_extract_txt_value` is first-match-wins over
the per-line body. -/
lemma secondPass_eq_findSome (L : List (List Char)) :
    secondPass L = L.findSome? secondPassBody := by
  induction L with
  | nil => rfl
  | cons a t ih =>
    rw [List.findSome?_cons]
    unfold secondPass
    cases hb : secondPassBody a <;> simp [hb, ih]

/-- The second loop never returns the empty string. -/
lemma secondPass_some_ne_nil (L : List (List Char)) (v : List Char)
    (h : secondPass L = some v) : v ≠ [] := by
  induction L with
  | nil => exact absurd h (by simp [secondPass])
  | cons a t ih =>
    unfold secondPass at h
    cases hb : secondPassBody a with
    | none =>
      rw [hb] at h
      exact ih h
    | some w =>
      rw [hb] at h
      obtain rfl : w = v := by injection h
      exact secondPassBody_some_ne_nil a w hb

/-! ### Claims C4, C5, C10 -/

/-- Everything after the first `=` of a line, stated as the claim
words it (for comparison with the code, which takes the segment
between the first and second `=`). -/
def afterFirstEq : List Char → List Char
  | [] => []
  | c :: r => if c = eqC then r else afterFirstEq r

/-- Claim C4 counterexample: on the single line
`_acme-challenge=a=b` (which has no `TXT value` marker and contains
both `_acme-challenge` and `=`), the trimmed quote-stripped text
after the first `=` is `a=b`, but the extractor returns `a` — the
code takes the segment between the first and second `=`, not
everything after the first `=`. -/
theorem claim_C4_counterexample :
    (∀ l ∈ splitChar nlC (pyStr "_acme-challenge=a=b"), markerLine l = false) ∧
    listContains (pyStr "_acme-challenge") (pyStr "_acme-challenge=a=b") = true ∧
    listContains [eqC] (pyStr "_acme-challenge=a=b") = true ∧
    stripChars isQuote (stripChars isPyWs
      (afterFirstEq (pyStr "_acme-challenge=a=b"))) = pyStr "a=b" ∧
    extract_txt_value (pyStr "_acme-challenge=a=b") = some (pyStr "a") ∧
    pyStr "a" ≠ pyStr "a=b" := by decide

/-- Claim C4 (amended): for every captured output in which no line
matches the `TXT value` marker heuristic, the extractor scans the
lines in order and returns the value of the first line containing
`_acme-challenge` and `=` whose second `=`-separated field is
non-empty after trimming whitespace and stripping surrounding
quotes (lines whose extracted value is empty are skipped); if no
line yields a value, it returns `none`. -/
theorem claim_C4 (output : List Char)
    (h : ∀ l ∈ splitChar nlC output, markerLine l = false) :
    extract_txt_value output = (splitChar nlC output).findSome? secondPassBody := by
  unfold extract_txt_value
  rw [firstPass_eq_none _ h, secondPass_eq_findSome]

/-- Witness for claim C4 at a concrete marker-free output. -/
theorem claim_C4_witness :
    extract_txt_value (pyStr "_acme-challenge=x") =
      (splitChar nlC (pyStr "_acme-challenge=x")).findSome? secondPassBody :=
  claim_C4 (pyStr "_acme-challenge=x") (by decide)

/-- Claim C5: on captured output in which no line matches either
extraction heuristic, `_extract_txt_value` returns `none` rather
than raising, and `issue_certificate` then returns `false` with the
explicit extraction-failure step preserving the raw stdout and
stderr, and without reaching the exception handler. -/
theorem claim_C5 (certExists force : Bool) (env : IssueEnv)
    (domain : List Char) (r1 : AcmeRun)
    (h1 : env.run1 = some r1)
    (h2 : ∀ l ∈ splitChar nlC (r1.stdout ++ r1.stderr),
      markerLine l = false ∧
      (listContains (pyStr "_acme-challenge") l && listContains [eqC] l) = false) :
    extract_txt_value (r1.stdout ++ r1.stderr) = none ∧
    issue_certificate certExists force env domain =
      (false, [IssueEv.acmeRun1 (certExists && force),
               IssueEv.extractFail r1.stdout r1.stderr]) := by
  have hx : extract_txt_value (r1.stdout ++ r1.stderr) = none := by
    unfold extract_txt_value
    rw [firstPass_eq_none _ (fun l hl => (h2 l hl).1), secondPass_eq_findSome]
    rw [List.findSome?_eq_none_iff]
    intro l hl
    unfold secondPassBody
    rw [(h2 l hl).2]
    rfl
  refine ⟨hx, ?_⟩
  unfold issue_certificate
  simp only [h1, hx]

/-- Witness for claim C5 at a concrete unrecognizable output. -/
theorem claim_C5_witness :
    extract_txt_value (pyStr "hello" ++ pyStr "world") = none ∧
    issue_certificate false false
      ⟨some ⟨pyStr "hello", pyStr "world", 1⟩, ⟨none, true, none⟩, none⟩
      (pyStr "w") =
      (false, [IssueEv.acmeRun1 false,
               IssueEv.extractFail (pyStr "hello") (pyStr "world")]) :=
  claim_C5 false false
    ⟨some ⟨pyStr "hello", pyStr "world", 1⟩, ⟨none, true, none⟩, none⟩
    (pyStr "w") ⟨pyStr "hello", pyStr "world", 1⟩ rfl (by decide)

/-- Claim C10: on captured output in which no line carries the
`TXT value` marker, `_extract_txt_value` never returns the empty
string — the result is `none` or a non-empty value. -/
theorem claim_C10 (output v : List Char)
    (hm : ∀ l ∈ splitChar nlC output, markerLine l = false)
    (hv : extract_txt_value output = some v) : v ≠ [] := by
  unfold extract_txt_value at hv
  rw [firstPass_eq_none _ hm] at hv
  exact secondPass_some_ne_nil _ _ hv

/-- Witness for claim C10 at a concrete output. -/
theorem claim_C10_witness : pyStr "x" ≠ ([] : List Char) :=
  claim_C10 (pyStr "_acme-challenge=x") (pyStr "x") (by decide) (by decide)

/-! ### Claim C6 -/

/-- Claim C6 counterexample: with an existing record found by the
provider query but an update call that raises, `add_dns_txt_record`
does issue the update call carrying the existing ID, but returns
`none` rather than that ID (the exception is caught and mapped to
`none`), so the unconditional "returns that same existing record ID"
fails. -/
theorem claim_C6_counterexample :
    (⟨some (pyStr "123"), false, none⟩ : DnsEnv).findResult = some (pyStr "123") ∧
    DnsEv.updateRecord (pyStr "123") (derive_record_name (pyStr "www.example.com"))
        (pyStr "tok") ∈
      (add_dns_txt_record ⟨some (pyStr "123"), false, none⟩
        (pyStr "www.example.com") (pyStr "tok")).2 ∧
    (add_dns_txt_record ⟨some (pyStr "123"), false, none⟩
      (pyStr "www.example.com") (pyStr "tok")).1 = none ∧
    (none : Option (List Char)) ≠ some (pyStr "123") := by decide

/-- Claim C6 (amended): whenever the provider query returns an
existing TXT record, `add_dns_txt_record` issues an update call
carrying that record's existing ID and never a create call; if the
update call completes it returns that same existing ID, and if the
update call raises, the error is caught and `none` is returned. -/
theorem claim_C6 (env : DnsEnv) (domain value recId : List Char)
    (h : env.findResult = some recId) :
    DnsEv.updateRecord recId (derive_record_name domain) value ∈
      (add_dns_txt_record env domain value).2 ∧
    (∀ r n v2, DnsEv.addRecord r n v2 ∉ (add_dns_txt_record env domain value).2) ∧
    (env.updateOk = true → (add_dns_txt_record env domain value).1 = some recId) ∧
    (env.updateOk = false → (add_dns_txt_record env domain value).1 = none) := by
  unfold add_dns_txt_record
  simp only [h]
  refine ⟨by simp, ?_, ?_, ?_⟩
  · intro r n v2
    simp
  · intro hu
    simp [hu]
  · intro hu
    simp [hu]

/-- Witness for claim C6 at a concrete environment with a found
record and a succeeding update call. -/
theorem claim_C6_witness :
    (add_dns_txt_record ⟨some (pyStr "7"), true, none⟩ (pyStr "www.example.com")
      (pyStr "tok")).1 = some (pyStr "7") :=
  (claim_C6 ⟨some (pyStr "7"), true, none⟩ (pyStr "www.example.com") (pyStr "tok")
    (pyStr "7") rfl).2.2.1 rfl

/-! ### Claim C3 -/

/-- Claim C3 counterexample: a run in which the challenge record was
created (`add_dns_txt_record` returned ID `99`) but the second ACME
invocation raises an exception: `issue_certificate` catches the
exception and returns false without ever invoking
`delete_dns_txt_record`, so deletion does not happen "regardless of
outcome". -/
theorem claim_C3_counterexample :
    extract_txt_value (pyStr "TXT value: " ++ [sqC] ++ pyStr "tok" ++ [sqC])
      = some (pyStr "tok") ∧
    (add_dns_txt_record ⟨none, true, some (pyStr "99")⟩ (pyStr "www.example.com")
      (pyStr "tok")).1 = some (pyStr "99") ∧
    issue_certificate false false
      ⟨some ⟨pyStr "TXT value: " ++ [sqC] ++ pyStr "tok" ++ [sqC], [], 0⟩,
       ⟨none, true, some (pyStr "99")⟩, none⟩ (pyStr "www.example.com") =
      (false, [IssueEv.acmeRun1 false, IssueEv.addTxt (pyStr "tok"),
               IssueEv.acmeRun2, IssueEv.exnCaught]) ∧
    IssueEv.deleteTxt (pyStr "99") ∉
      (issue_certificate false false
        ⟨some ⟨pyStr "TXT value: " ++ [sqC] ++ pyStr "tok" ++ [sqC], [], 0⟩,
         ⟨none, true, some (pyStr "99")⟩, none⟩ (pyStr "www.example.com")).2 := by
  decide

/-- Claim C3 (amended): in every execution of `issue_certificate` in
which the DNS challenge record was created or updated
(`add_dns_txt_record` returned a record ID), if the second ACME
invocation returns normally — succeeding or failing with a non-zero
exit code — then `delete_dns_txt_record` is invoked on that ID
before `issue_certificate` returns; if the second invocation raises
an exception, the handler returns false and the deletion is
skipped. -/
theorem claim_C3 (certExists force : Bool) (env : IssueEnv)
    (domain : List Char) (r1 : AcmeRun) (txt recId : List Char)
    (h1 : env.run1 = some r1)
    (h2 : extract_txt_value (r1.stdout ++ r1.stderr) = some txt)
    (h3 : (add_dns_txt_record env.dns domain txt).1 = some recId) :
    (∀ r2, env.run2 = some r2 →
      IssueEv.deleteTxt recId ∈ (issue_certificate certExists force env domain).2) ∧
    (env.run2 = none →
      (issue_certificate certExists force env domain).1 = false ∧
      ∀ i, IssueEv.deleteTxt i ∉ (issue_certificate certExists force env domain).2) := by
  unfold issue_certificate
  simp only [h1, h2, h3]
  constructor
  · intro r2 hr2
    simp [hr2]
  · intro hr2
    simp [hr2]

/-- Witness for claim C3 at a concrete environment whose second run
returns with a non-zero exit code. -/
theorem claim_C3_witness :
    IssueEv.deleteTxt (pyStr "99") ∈
      (issue_certificate false false
        ⟨some ⟨pyStr "TXT value: " ++ [sqC] ++ pyStr "tok2" ++ [sqC], [], 0⟩,
         ⟨none, true, some (pyStr "99")⟩, some ⟨[], [], 2⟩⟩
        (pyStr "www.example.com")).2 :=
  (claim_C3 false false
    ⟨some ⟨pyStr "TXT value: " ++ [sqC] ++ pyStr "tok2" ++ [sqC], [], 0⟩,
     ⟨none, true, some (pyStr "99")⟩, some ⟨[], [], 2⟩⟩
    (pyStr "www.example.com")
    ⟨pyStr "TXT value: " ++ [sqC] ++ pyStr "tok2" ++ [sqC], [], 0⟩
    (pyStr "tok2") (pyStr "99") rfl (by decide) (by decide)).1 ⟨[], [], 2⟩ rfl

/-! ### Orchestrator lemmas and claims C2, C8, C9 -/

/-- One step of the `run` loop for a domain that does not succeed:
the failure is tallied and the remaining domains are still processed
from the resulting store state. -/
lemma run_tally_cons_ne (cfgT : Option Int) (d : List Char) (e : DomEnv)
    (rest : List (List Char × DomEnv)) (sp : StorePair)
    (hne : (process_domain cfgT e sp d).1 ≠ Outcome.ok true) :
    run_tally cfgT ((d, e) :: rest) sp
      = ((run_tally cfgT rest (process_domain cfgT e sp d).2.1).1,
         (run_tally cfgT rest (process_domain cfgT e sp d).2.1).2.1 + 1,
         (run_tally cfgT rest (process_domain cfgT e sp d).2.1).2.2) := by
  simp only [run_tally]

/-- Claim C9: after the `run` loop, every configured domain is
counted exactly once — the success count plus the failure count
equals the number of configured domains — and a domain whose
processing returns false or raises (the exception being caught at
the loop boundary) adds one to the failure count while the remaining
domains are still processed. -/
theorem claim_C9 (cfgT : Option Int) :
    (∀ l sp, (run_tally cfgT l sp).1 + (run_tally cfgT l sp).2.1 = l.length) ∧
    (∀ d e rest sp, (process_domain cfgT e sp d).1 ≠ Outcome.ok true →
      run_tally cfgT ((d, e) :: rest) sp
        = ((run_tally cfgT rest (process_domain cfgT e sp d).2.1).1,
           (run_tally cfgT rest (process_domain cfgT e sp d).2.1).2.1 + 1,
           (run_tally cfgT rest (process_domain cfgT e sp d).2.1).2.2)) := by
  constructor
  · intro l
    induction l with
    | nil => intro sp; rfl
    | cons p rest ih =>
      intro sp
      obtain ⟨d, e⟩ := p
      simp only [run_tally]
      rcases ho : (process_domain cfgT e sp d).1 with b | _
      · cases b with
        | true =>
          have ht := ih (process_domain cfgT e sp d).2.1
          show (run_tally cfgT rest (process_domain cfgT e sp d).2.1).1 + 1
              + (run_tally cfgT rest (process_domain cfgT e sp d).2.1).2.1
              = rest.length + 1
          omega
        | false =>
          have ht := ih (process_domain cfgT e sp d).2.1
          show (run_tally cfgT rest (process_domain cfgT e sp d).2.1).1
              + ((run_tally cfgT rest (process_domain cfgT e sp d).2.1).2.1 + 1)
              = rest.length + 1
          omega
      · have ht := ih (process_domain cfgT e sp d).2.1
        show (run_tally cfgT rest (process_domain cfgT e sp d).2.1).1
            + ((run_tally cfgT rest (process_domain cfgT e sp d).2.1).2.1 + 1)
            = rest.length + 1
        omega
  · intro d e rest sp hne
    exact run_tally_cons_ne cfgT d e rest sp hne

/-- Witness for claim C9: a single domain whose processing fails
yields tally (0, 1). -/
theorem claim_C9_witness :
    run_tally none
      [(pyStr "d9", ⟨false, ⟨none, ⟨none, true, none⟩, none⟩, false, false, 0⟩)]
      ⟨[], []⟩
      = (0, 1, ⟨[], []⟩) := by
  rw [(claim_C9 none).2 (pyStr "d9")
    ⟨false, ⟨none, ⟨none, true, none⟩, none⟩, false, false, 0⟩ [] ⟨[], []⟩
    (by decide)]
  decide

/-- Claim C2 counterexample: a domain needing renewal whose
artifacts exist on disk and which has no active record: issuance is
skipped and the publish succeeds (`uploadOk = true`, the upload step
appears in the trace), but the subsequent record-store write raises,
so `process_domain` raises and the domain is tallied as a failure
rather than a success. -/
theorem claim_C2_counterexample :
    check_cert_expiry [] none 0 (pyStr "c2") = true ∧
    hasActiveRecord [] (pyStr "c2") = false ∧
    (⟨true, ⟨none, ⟨none, true, none⟩, none⟩, true, false, 0⟩ : DomEnv).uploadOk
      = true ∧
    PEv.uploadCall ∈
      (process_domain none ⟨true, ⟨none, ⟨none, true, none⟩, none⟩, true, false, 0⟩
        ⟨[], []⟩ (pyStr "c2")).2.2 ∧
    (process_domain none ⟨true, ⟨none, ⟨none, true, none⟩, none⟩, true, false, 0⟩
      ⟨[], []⟩ (pyStr "c2")).1 = Outcome.raised ∧
    Outcome.raised ≠ Outcome.ok true := by decide

/-- Claim C2 (amended): for every domain for which renewal is needed
and the artifact set exists on disk, `process_domain` invokes
issuance in forced-renewal mode exactly when the domain's record
exists with status active; otherwise it skips issuance entirely and
proceeds directly to publishing, and a successful publish in that
skip case updates the in-memory record and — provided the
record-store write succeeds — persists it and counts the domain as a
success; if the record write raises, the domain counts as a
failure. -/
theorem claim_C2 (cfgT : Option Int) (env : DomEnv) (sp : StorePair)
    (domain : List Char)
    (h1 : check_cert_expiry sp.mem cfgT env.now domain = true)
    (h2 : env.certExists = true) :
    (hasActiveRecord sp.mem domain = true →
      PEv.issueCall true ∈ (process_domain cfgT env sp domain).2.2) ∧
    (hasActiveRecord sp.mem domain = false →
      (∀ f, PEv.issueCall f ∉ (process_domain cfgT env sp domain).2.2) ∧
      PEv.uploadCall ∈ (process_domain cfgT env sp domain).2.2 ∧
      (env.uploadOk = true → env.saveOk = true →
        (process_domain cfgT env sp domain).1 = Outcome.ok true ∧
        storeGet (process_domain cfgT env sp domain).2.1.mem domain
          = some (mkActiveRecord env.now) ∧
        (process_domain cfgT env sp domain).2.1.file
          = (process_domain cfgT env sp domain).2.1.mem) ∧
      (env.uploadOk = true → env.saveOk = false →
        (process_domain cfgT env sp domain).1 = Outcome.raised)) := by
  have hne : ¬(check_cert_expiry sp.mem cfgT env.now domain = false) := by
    simp [h1]
  unfold process_domain
  rw [if_neg hne, if_pos h2]
  constructor
  · intro hA
    rw [if_pos hA]
    by_cases hi : (issue_certificate env.certExists true env.issueEnv domain).1 = true
    · rw [if_pos hi]
      unfold publishStep
      split_ifs <;> simp
    · rw [if_neg hi]
      simp
  · intro hA
    rw [if_neg (by simp [hA] :
      ¬(hasActiveRecord sp.mem domain = true))]
    refine ⟨?_, ?_, ?_, ?_⟩
    · intro f
      unfold publishStep
      split_ifs <;> simp
    · unfold publishStep
      split_ifs <;> simp
    · intro hu hs
      unfold publishStep
      rw [if_pos hu, if_pos hs]
      refine ⟨rfl, ?_, rfl⟩
      unfold update_cert_record storeSet storeGet
      simp
    · intro hu hs
      unfold publishStep
      rw [if_pos hu, if_neg (by simp [hs] : ¬(env.saveOk = true))]

/-- Witness for claim C2: concrete skip-issuance case with a
successful publish and record write, ending in success. -/
theorem claim_C2_witness :
    (process_domain none ⟨true, ⟨none, ⟨none, true, none⟩, none⟩, true, true, 0⟩
      ⟨[], []⟩ (pyStr "z")).1 = Outcome.ok true :=
  (((claim_C2 none ⟨true, ⟨none, ⟨none, true, none⟩, none⟩, true, true, 0⟩
    ⟨[], []⟩ (pyStr "z") (by decide) rfl).2 (by decide)).2.2.1 rfl rfl).1

/-- Claim C8 counterexample: a failing cycle that does change the
record store for the domain — publish succeeds but the record write
raises, so `process_domain` raises (a failed cycle) while the
in-memory mapping has already been updated for the domain. -/
theorem claim_C8_counterexample :
    (process_domain none ⟨true, ⟨none, ⟨none, true, none⟩, none⟩, true, false, 0⟩
      ⟨[], []⟩ (pyStr "y")).1 = Outcome.raised ∧
    storeGet (process_domain none
        ⟨true, ⟨none, ⟨none, true, none⟩, none⟩, true, false, 0⟩
        ⟨[], []⟩ (pyStr "y")).2.1.mem (pyStr "y")
      ≠ storeGet ([] : Store) (pyStr "y") := by decide

/-- Claim C8 (amended): whenever `process_domain` returns false the
record store (in-memory mapping and backing file) is left entirely
unchanged; the only failing execution that mutates it is a raising
one, which happens exactly when publish succeeded and the final
record write failed — there the backing file is unchanged but the
in-memory mapping has the domain's record updated; in both failing
cases the `run` loop tallies the domain as a failure and continues
with the remaining domains from the resulting state. -/
theorem claim_C8 (cfgT : Option Int) (env : DomEnv) (sp : StorePair)
    (domain : List Char) :
    ((process_domain cfgT env sp domain).1 = Outcome.ok false →
      (process_domain cfgT env sp domain).2.1 = sp) ∧
    ((process_domain cfgT env sp domain).1 = Outcome.raised →
      (process_domain cfgT env sp domain).2.1.file = sp.file ∧
      (process_domain cfgT env sp domain).2.1.mem
        = update_cert_record sp.mem env.now domain ∧
      env.uploadOk = true ∧ env.saveOk = false) ∧
    (∀ rest, (process_domain cfgT env sp domain).1 ≠ Outcome.ok true →
      (run_tally cfgT ((domain, env) :: rest) sp).1
        = (run_tally cfgT rest (process_domain cfgT env sp domain).2.1).1 ∧
      (run_tally cfgT ((domain, env) :: rest) sp).2.1
        = (run_tally cfgT rest (process_domain cfgT env sp domain).2.1).2.1 + 1) := by
  refine ⟨?_, ?_, ?_⟩
  · unfold process_domain publishStep
    split_ifs <;> simp
  · unfold process_domain publishStep
    split_ifs <;> simp_all
  · intro rest hrest
    have key := run_tally_cons_ne cfgT domain env rest sp hrest
    exact ⟨by rw [key], by rw [key]⟩

/-- Witness for claim C8: a concrete failing cycle (fresh issuance
fails) leaves the store untouched. -/
theorem claim_C8_witness :
    (process_domain none ⟨false, ⟨none, ⟨none, true, none⟩, none⟩, false, false, 0⟩
      ⟨[], []⟩ (pyStr "w8")).2.1 = ⟨[], []⟩ :=
  (claim_C8 none ⟨false, ⟨none, ⟨none, true, none⟩, none⟩, false, false, 0⟩
    ⟨[], []⟩ (pyStr "w8")).1 (by decide)
